import Mathlib

/-!
Shallow embedding of the `log-gateway-lib` TypeScript client
(`src/lib/client.ts`).  JavaScript values flowing through the client are
modelled by the inductive `Json`; objects are association lists from field
names to values, and JavaScript object-spread is modelled by `spreadMerge`
(later binding wins on a per-key basis, which is the observable lookup
semantics of `{...defaults, ...payload}`).  The HTTP transport is modelled
by passing an explicit gateway function from requests to responses; a
response's body is pre-classified as either a decoded `Json` value or the
raw text on which `JSON.parse` would fail.  Errors are the thrown
`Error` messages of the source, carried in `Except String`.
-/

/-- A JSON/JavaScript value, as manipulated by the client
(`LogPayload` fields are `any`-typed in the source). Numbers are modelled
as integers; no claim touches fractional values. -/
inductive Json where
  | null : Json
  | bool : Bool → Json
  | num : Int → Json
  | str : String → Json
  | arr : List Json → Json
  | obj : List (String × Json) → Json

/-- JavaScript truthiness of a value, as used by `if (!logPayload.msg)`
(client.ts line 121) and `if (data)` (line 102): `null`, `false`, `0`
and the empty string are falsy; every array and object is truthy. -/
def Json.truthy : Json → Bool
  | .null => false
  | .bool b => b
  | .num n => n != 0
  | .str s => s != ""
  | .arr _ => true
  | .obj _ => true

mutual

/-- JavaScript `String(v)` coercion, as applied by `new Error(parsed.error)`
(client.ts line 92) when the decoded error field is not already a string:
arrays join their stringified elements with commas (`null` elements
become the empty string), plain objects print as `[object Object]`. -/
def Json.toJSString : Json → String
  | .null => "null"
  | .bool true => "true"
  | .bool false => "false"
  | .num n => toString n
  | .str s => s
  | .obj _ => "[object Object]"
  | .arr xs => String.intercalate "," (jsonListToStrings xs)

/-- Stringification of array elements for `Array.prototype.toString`. -/
def jsonListToStrings : List Json → List String
  | [] => []
  | Json.null :: rest => "" :: jsonListToStrings rest
  | v :: rest => v.toJSString :: jsonListToStrings rest

end

/-- A JavaScript object, as an association list of fields (a JS object has
no duplicate keys; lookup takes the first binding). -/
abbrev Obj := List (String × Json)

/-- Observable semantics of the JavaScript object spread
`{...defaults, ...overrides}`: for every key, the override's binding wins
when present, otherwise the default's binding is kept. -/
def spreadMerge (defaults overrides : Obj) : Obj :=
  defaults.filter (fun p => (overrides.lookup p.1).isNone) ++ overrides

theorem lookup_append_obj (l1 l2 : Obj) (k : String) :
    (l1 ++ l2).lookup k =
      match l1.lookup k with
      | some v => some v
      | none => l2.lookup k := by
  induction l1 with
  | nil => rfl
  | cons p t ih =>
    cases h : (k == p.1) <;> simp [List.lookup, h, ih]

theorem lookup_filter_none (d o : Obj) (k : String) (h : o.lookup k = some v) :
    (d.filter (fun p => (o.lookup p.1).isNone)).lookup k = none := by
  induction d with
  | nil => rfl
  | cons p t ih =>
    by_cases hk : (o.lookup p.1).isNone
    · have hne : (k == p.1) = false := by
        rcases hkeq : (k == p.1) with _ | _
        · rfl
        · exfalso
          have : k = p.1 := by exact eq_of_beq hkeq
          rw [this] at h
          rw [h] at hk
          simp at hk
      simp [List.filter, hk, List.lookup, hne, ih]
    · simp [List.filter, hk, ih]

theorem lookup_filter_keep (d o : Obj) (k : String) (h : o.lookup k = none) :
    (d.filter (fun p => (o.lookup p.1).isNone)).lookup k = d.lookup k := by
  induction d with
  | nil => rfl
  | cons p t ih =>
    rcases hkeq : (k == p.1) with _ | _
    · by_cases hk : (o.lookup p.1).isNone
      · simp [List.filter, hk, List.lookup, hkeq, ih]
      · simp [List.filter, hk, List.lookup, hkeq, ih]
    · have : k = p.1 := eq_of_beq hkeq
      have hk : (o.lookup p.1).isNone := by rw [← this, h]; rfl
      simp [List.filter, hk, List.lookup, hkeq]

/-- Spread semantics, overriding case: a key bound in the overlay object
keeps the overlay's value in the merge. -/
theorem lookup_spreadMerge_of_some (d o : Obj) (k : String) (v : Json)
    (h : o.lookup k = some v) : (spreadMerge d o).lookup k = some v := by
  unfold spreadMerge
  rw [lookup_append_obj, lookup_filter_none d o k h, h]

/-- Spread semantics, defaulting case: a key absent from the overlay object
falls back to the defaults' binding. -/
theorem lookup_spreadMerge_of_none (d o : Obj) (k : String)
    (h : o.lookup k = none) : (spreadMerge d o).lookup k = d.lookup k := by
  unfold spreadMerge
  rw [lookup_append_obj, lookup_filter_keep d o k h, h]
  cases d.lookup k <;> rfl

/-- The own enumerable fields contributed by spreading an arbitrary value
into an object literal: objects contribute their fields, arrays and strings
contribute index-keyed entries, primitives contribute nothing. Used by
`batch`, whose entries are spread with `{timestamp: ..., ...log}`
(client.ts lines 179-182). -/
def jsSpreadFields : Json → Obj
  | .obj o => o
  | .arr xs => (xs.enum).map (fun p => (toString p.1, p.2))
  | .str s => (s.data.enum).map (fun p => (toString p.1, Json.str (String.singleton p.2)))
  | _ => []

/-- Spread of an arbitrary value `v` into an object literal, as in `{...defaults, ...v}`. -/
def jsSpread (defaults : Obj) (v : Json) : Obj :=
  spreadMerge defaults (jsSpreadFields v)

/-- One HTTP request as issued by `_httpRequest` (client.ts lines 66-107):
URL, method, optional JSON body (written only when `data` is truthy,
line 102), and the header map passed by the caller. -/
structure HttpRequest where
  url : String
  method : String
  body : Option Json
  headers : List (String × String)


/-- A gateway's answer to one request: the status, the accumulated
response text `raw` (`responseData`, client.ts lines 84-85), and its
parse classification — `decoded` is `some v` when `JSON.parse raw` yields
`v`, and `none` when `JSON.parse` would throw on `raw`. -/
structure GatewayResponse where
  status : Nat
  raw : String
  decoded : Option Json

/-- The remote gateway, modelled as a function from the issued request to
its response. -/
abbrev Gateway := HttpRequest → GatewayResponse

/-- The property access `parsed.error` (client.ts line 92): a TypeError
(`Except.error ()`) when `parsed` is `null` — `JSON.parse` never yields
`undefined` — the field (possibly `undefined`, i.e. `none`) when `parsed`
is an object, and `undefined` for every other value, whose prototype
carries no `error` property. -/
def jsErrorAccess : Json → Except Unit (Option Json)
  | .null => Except.error ()
  | .obj o => Except.ok (o.lookup "error")
  | _ => Except.ok none

/-- The fallback `parsed.error || "HTTP " + status` (client.ts line 92),
given the successfully accessed field: the field when present and truthy
(coerced to a string by the `Error` constructor), otherwise the generic
status message. -/
def httpErrorMessage (errField : Option Json) (status : Nat) : String :=
  match errField with
  | some v => if v.truthy then v.toJSString else "HTTP " ++ toString status
  | none => "HTTP " ++ toString status

/-- The message a non-2xx valid-JSON response rejects with: `parsed.error`
is evaluated inside the same `try` block as `JSON.parse` (client.ts
lines 87-96), so when the access throws — `parsed` is `null` — the
enclosing `catch` rejects with the invalid-JSON message carrying the raw
text instead. -/
def non2xxMessage (parsed : Json) (raw : String) (status : Nat) : String :=
  match jsErrorAccess parsed with
  | Except.ok errField => httpErrorMessage errField status
  | Except.error _ => "Invalid JSON response: " ++ raw

/-- Response handling of `_httpRequest` (client.ts lines 86-97): parse the
accumulated text, rejecting with the raw text on parse failure; on success
resolve when the status is in [200,300), and otherwise reject with
`non2xxMessage` (which falls back to the raw-text message when the
`parsed.error` access itself throws). -/
def handleResponse (r : GatewayResponse) : Except String Json :=
  match r.decoded with
  | some parsed =>
    if 200 ≤ r.status ∧ r.status < 300 then Except.ok parsed
    else Except.error (non2xxMessage parsed r.raw r.status)
  | none => Except.error ("Invalid JSON response: " ++ r.raw)

/-- Transport primitive `_httpRequest` (client.ts lines 66-107): issues exactly one request —
the body is written only when `data` is truthy (line 102) — and returns
the list of requests issued together with the settled promise. -/
def httpRequest (gw : Gateway) (url method : String) (data : Option Json)
    (headers : List (String × String)) : List HttpRequest × Except String Json :=
  let body := match data with
    | some d => if d.truthy then some d else none
    | none => none
  let req : HttpRequest := ⟨url, method, body, headers⟩
  ([req], handleResponse (gw req))

/-- Message of `throw new Error('LogGatewayClient requires endpoint and appId')`
(client.ts line 51); the spec's `ConfigurationError`. -/
def configurationErrMsg : String := "LogGatewayClient requires endpoint and appId"

/-- Normalization `endpoint.replace(/\/$/, '')` on the character list: the regex removes
one trailing slash when present (client.ts line 54). -/
def stripTrailingSlashChars (cs : List Char) : List Char :=
  if cs.getLast? = some '/' then cs.dropLast else cs

/-- Normalization `endpoint.replace(/\/$/, '')` (client.ts line 54). -/
def stripTrailingSlash (s : String) : String :=
  String.mk (stripTrailingSlashChars s.data)

/-- The state of a constructed `LogGatewayClient` (client.ts lines 44-60):
normalized endpoint, app id, and the fixed header map. -/
structure LogGatewayClient where
  endpoint : String
  appId : String
  headers : List (String × String)

/-- The field assignments of the constructor body (client.ts lines 54-59),
reached only after the argument check passes. -/
def mkClientD (endpoint appId : String) : LogGatewayClient :=
  { endpoint := stripTrailingSlash endpoint
    appId := appId
    headers := [("X-App-Id", appId), ("Content-Type", "application/json")] }

/-- Constructor `new LogGatewayClient(endpoint, appId)` (client.ts lines 49-60):
throws when either argument is falsy (the empty string), otherwise stores
the normalized endpoint and the fixed headers. -/
def mkClient (endpoint appId : String) : Except String LogGatewayClient :=
  if endpoint = "" ∨ appId = "" then Except.error configurationErrMsg
  else Except.ok (mkClientD endpoint appId)

/-- Check `if (!logPayload.msg)` (client.ts line 121): the merged payload's
`msg` field must exist and be truthy. -/
def msgTruthy (o : Obj) : Bool :=
  match o.lookup "msg" with
  | some v => v.truthy
  | none => false

/-- Message of `throw new Error('Log payload must include "msg" field')`
(client.ts line 122); the spec's `ValidationError` for single sends. -/
def msgFieldErrMsg : String := "Log payload must include \"msg\" field"

/-- The `catch` wrapper of `_sendLog`, `batch` and `testConnection`
(client.ts lines 133-135, 192-194, 209-211): a rejected transport promise
is re-thrown with a fixed message prepended. -/
def wrapFailure (pre : String) : Except String Json → Except String Json
  | .ok v => .ok v
  | .error m => .error (pre ++ m)

/-- Core send `_sendLog(level, payload)` (client.ts lines 113-136): builds
`{level, timestamp: now, ...payload}`, throws the validation error when the
merged `msg` is falsy (before any request), otherwise POSTs the merged
object to `{endpoint}/logs` with the instance headers, wrapping any
transport failure with `Failed to send log: `. Returns the requests issued
and the call's outcome. -/
def LogGatewayClient.sendLog (c : LogGatewayClient) (now : String)
    (gw : Gateway) (level : String) (payload : Obj) :
    List HttpRequest × Except String Json :=
  let logPayload := spreadMerge
    [("level", Json.str level), ("timestamp", Json.str now)] payload
  if msgTruthy logPayload then
    let r := httpRequest gw (c.endpoint ++ "/logs") "POST"
      (some (Json.obj logPayload)) c.headers
    (r.1, wrapFailure "Failed to send log: " r.2)
  else
    ([], Except.error msgFieldErrMsg)

/-- Method `info(payload)` (client.ts lines 142-144). -/
def LogGatewayClient.info (c : LogGatewayClient) (now : String) (gw : Gateway)
    (payload : Obj) : List HttpRequest × Except String Json :=
  c.sendLog now gw "info" payload

/-- Method `warning(payload)` (client.ts lines 150-152): wire level `warn`. -/
def LogGatewayClient.warning (c : LogGatewayClient) (now : String) (gw : Gateway)
    (payload : Obj) : List HttpRequest × Except String Json :=
  c.sendLog now gw "warn" payload

/-- Method `error(payload)` (client.ts lines 158-160). -/
def LogGatewayClient.error (c : LogGatewayClient) (now : String) (gw : Gateway)
    (payload : Obj) : List HttpRequest × Except String Json :=
  c.sendLog now gw "error" payload

/-- Method `debug(payload)` (client.ts lines 166-168). -/
def LogGatewayClient.debug (c : LogGatewayClient) (now : String) (gw : Gateway)
    (payload : Obj) : List HttpRequest × Except String Json :=
  c.sendLog now gw "debug" payload

/-- Message of `throw new Error('Batch logs must be an array')` (client.ts line 176);
the spec's `ValidationError` for `batch`. -/
def batchArrayErrMsg : String := "Batch logs must be an array"

/-- Method `batch(logs)` (client.ts lines 174-195): rejects non-arrays before any
request; otherwise stamps each entry with `{timestamp: nowSeq i, ...log}`
(each entry's `new Date()` is a fresh call, modelled by indexing the clock)
and POSTs the whole array in a single request to `{endpoint}/logs`,
wrapping transport failures with `Failed to send batch logs: `. -/
def LogGatewayClient.batch (c : LogGatewayClient) (nowSeq : Nat → String)
    (gw : Gateway) (logs : Json) : List HttpRequest × Except String Json :=
  match logs with
  | .arr entries =>
    let processedLogs := (entries.enum).map
      (fun p => Json.obj (jsSpread [("timestamp", Json.str (nowSeq p.1))] p.2))
    let r := httpRequest gw (c.endpoint ++ "/logs") "POST"
      (some (Json.arr processedLogs)) c.headers
    (r.1, wrapFailure "Failed to send batch logs: " r.2)
  | _ => ([], Except.error batchArrayErrMsg)

/-- Method `testConnection()` (client.ts lines 200-212): a GET to
`{endpoint}/health` carrying only a content-type header (not the instance
headers), wrapping failures with `Gateway connection failed: `. -/
def LogGatewayClient.testConnection (c : LogGatewayClient) (gw : Gateway) :
    List HttpRequest × Except String Json :=
  let r := httpRequest gw (c.endpoint ++ "/health") "GET" none
    [("Content-Type", "application/json")]
  (r.1, wrapFailure "Gateway connection failed: " r.2)

/-- Factory `createClient(endpoint, appId)` (client.ts lines 220-222): just the
constructor. -/
def createClient (endpoint appId : String) : Except String LogGatewayClient :=
  mkClient endpoint appId

/-- Factory `createClient` in state-passing form over the module-level
`globalLogger` slot (client.ts line 225): its body never reads or assigns
the slot, so the translation threads the slot through unchanged. -/
def createClientS (globalLogger : Option LogGatewayClient)
    (endpoint appId : String) :
    Except String LogGatewayClient × Option LogGatewayClient :=
  (createClient endpoint appId, globalLogger)

/-- Registration `configure(endpoint, appId)` (client.ts lines 232-235): assigns
`globalLogger = createClient(endpoint, appId)` and returns it; when the
constructor throws, the exception propagates before the assignment and the
slot keeps its previous value. -/
def configure (globalLogger : Option LogGatewayClient)
    (endpoint appId : String) :
    Except String LogGatewayClient × Option LogGatewayClient :=
  match createClient endpoint appId with
  | .ok c => (.ok c, some c)
  | .error e => (.error e, globalLogger)

/-- Message of `throw new Error('Logger not configured. ...')`
(client.ts lines 242-258); the spec's `NotConfiguredError`. -/
def notConfiguredErrMsg : String :=
  "Logger not configured. Call configure(endpoint, appId) first."

/-- Free function `log.info` (client.ts lines 241-244): fails when no global instance is
registered, otherwise forwards to the registered instance. -/
def log.info (globalLogger : Option LogGatewayClient) (now : String)
    (gw : Gateway) (payload : Obj) : List HttpRequest × Except String Json :=
  match globalLogger with
  | none => ([], Except.error notConfiguredErrMsg)
  | some c => c.info now gw payload

/-- Free function `log.warning` (client.ts lines 245-248). -/
def log.warning (globalLogger : Option LogGatewayClient) (now : String)
    (gw : Gateway) (payload : Obj) : List HttpRequest × Except String Json :=
  match globalLogger with
  | none => ([], Except.error notConfiguredErrMsg)
  | some c => c.warning now gw payload

/-- Free function `log.error` (client.ts lines 249-252). -/
def log.error (globalLogger : Option LogGatewayClient) (now : String)
    (gw : Gateway) (payload : Obj) : List HttpRequest × Except String Json :=
  match globalLogger with
  | none => ([], Except.error notConfiguredErrMsg)
  | some c => c.error now gw payload

/-- Free function `log.debug` (client.ts lines 253-256). -/
def log.debug (globalLogger : Option LogGatewayClient) (now : String)
    (gw : Gateway) (payload : Obj) : List HttpRequest × Except String Json :=
  match globalLogger with
  | none => ([], Except.error notConfiguredErrMsg)
  | some c => c.debug now gw payload

/-- Free function `log.batch` (client.ts lines 257-260). -/
def log.batch (globalLogger : Option LogGatewayClient) (nowSeq : Nat → String)
    (gw : Gateway) (logs : Json) : List HttpRequest × Except String Json :=
  match globalLogger with
  | none => ([], Except.error notConfiguredErrMsg)
  | some c => c.batch nowSeq gw logs

/-- The four public level methods (client.ts lines 142-168), for
quantifying over them. -/
inductive LevelMethod where
  | info : LevelMethod
  | warning : LevelMethod
  | error : LevelMethod
  | debug : LevelMethod

/-- The fixed wire level each method passes to `_sendLog`:
`warning` sends `warn`, the others their own name. -/
def LevelMethod.wireLevel : LevelMethod → String
  | .info => "info"
  | .warning => "warn"
  | .error => "error"
  | .debug => "debug"

/-- Invoking the chosen level method on an instance. -/
def LevelMethod.run (m : LevelMethod) (c : LogGatewayClient) (now : String)
    (gw : Gateway) (payload : Obj) : List HttpRequest × Except String Json :=
  match m with
  | .info => c.info now gw payload
  | .warning => c.warning now gw payload
  | .error => c.error now gw payload
  | .debug => c.debug now gw payload

theorem levelMethod_run_eq_sendLog (m : LevelMethod) (c : LogGatewayClient)
    (now : String) (gw : Gateway) (payload : Obj) :
    m.run c now gw payload = c.sendLog now gw m.wireLevel payload := by
  cases m <;> rfl

/-- Substring predicate: `needle` occurs as a substring of `hay`. -/
def strContains (hay needle : String) : Prop :=
  ∃ pre post, hay = pre ++ needle ++ post

theorem string_append_empty (s : String) : s ++ "" = s := by
  cases s with
  | mk data => show String.mk (data ++ []) = String.mk data
               rw [List.append_nil]

theorem strContains_of_append (pre s : String) :
    strContains (pre ++ s) s :=
  ⟨pre, "", by rw [string_append_empty]⟩

theorem strContains_empty (hay : String) : strContains hay "" :=
  ⟨hay, "", by rw [string_append_empty, string_append_empty]⟩

theorem string_append_assoc (a b c : String) : a ++ b ++ c = a ++ (b ++ c) := by
  cases a with
  | mk da =>
    cases b with
    | mk db =>
      cases c with
      | mk dc =>
        show String.mk (da ++ db ++ dc) = String.mk (da ++ (db ++ dc))
        rw [List.append_assoc]

/-- The string ends with a slash character (so that concatenating `/logs`
after it yields a double slash at the join). -/
abbrev endsWithSlash (s : String) : Prop := s.data.getLast? = some '/'

/-- The generated defaults of `_sendLog` carry no `msg` binding, so the
merged payload's `msg` field is the caller's. -/
theorem msgTruthy_merged (lv now : String) (p : Obj) :
    msgTruthy (spreadMerge
      [("level", Json.str lv), ("timestamp", Json.str now)] p) = msgTruthy p := by
  unfold msgTruthy
  cases h : p.lookup "msg" with
  | some v =>
    rw [lookup_spreadMerge_of_some _ p "msg" v h]
  | none =>
    rw [lookup_spreadMerge_of_none _ p "msg" h]
    rfl

theorem defaults_lookup_other (lv now k : String) (h1 : k ≠ "level")
    (h2 : k ≠ "timestamp") :
    (([("level", Json.str lv), ("timestamp", Json.str now)] : Obj).lookup k)
      = none := by
  simp [List.lookup, beq_eq_false_iff_ne.mpr h1, beq_eq_false_iff_ne.mpr h2]

/-- When the caller's payload carries a truthy `msg`, `_sendLog` issues
exactly the one POST of the merged object and returns the wrapped
transport outcome. -/
theorem sendLog_requests (c : LogGatewayClient) (now lv : String)
    (gw : Gateway) (payload : Obj) (hmsg : msgTruthy payload = true) :
    c.sendLog now gw lv payload =
      ([⟨c.endpoint ++ "/logs", "POST",
          some (Json.obj (spreadMerge
            [("level", Json.str lv), ("timestamp", Json.str now)] payload)),
          c.headers⟩],
        wrapFailure "Failed to send log: "
          (handleResponse (gw ⟨c.endpoint ++ "/logs", "POST",
            some (Json.obj (spreadMerge
              [("level", Json.str lv), ("timestamp", Json.str now)] payload)),
            c.headers⟩))) := by
  unfold LogGatewayClient.sendLog httpRequest
  simp only [msgTruthy_merged, hmsg, if_true, Json.truthy]

/-- When the caller's payload lacks a truthy `msg`, `_sendLog` throws the
validation error with no request issued. -/
theorem sendLog_validation (c : LogGatewayClient) (now lv : String)
    (gw : Gateway) (payload : Obj) (hmsg : msgTruthy payload = false) :
    c.sendLog now gw lv payload = ([], Except.error msgFieldErrMsg) := by
  unfold LogGatewayClient.sendLog
  simp only [msgTruthy_merged, hmsg, Bool.false_eq_true, if_false]

/-- Every request a level method issues goes to `{endpoint}/logs` as a POST
with the instance headers. -/
theorem sendLog_mem_requests (c : LogGatewayClient) (now lv : String)
    (gw : Gateway) (payload : Obj) (r : HttpRequest)
    (hr : r ∈ (c.sendLog now gw lv payload).1) :
    r.headers = c.headers ∧ r.url = c.endpoint ++ "/logs" ∧
      r.method = "POST" := by
  cases hmsg : msgTruthy payload with
  | true =>
    rw [sendLog_requests c now lv gw payload hmsg] at hr
    rw [List.mem_singleton] at hr
    subst hr
    exact ⟨rfl, rfl, rfl⟩
  | false =>
    rw [sendLog_validation c now lv gw payload hmsg] at hr
    cases hr

/-- Every request `batch` issues goes to `{endpoint}/logs` as a POST with
the instance headers. -/
theorem batch_mem_requests (c : LogGatewayClient) (nowSeq : Nat → String)
    (gw : Gateway) (logs : Json) (r : HttpRequest)
    (hr : r ∈ (c.batch nowSeq gw logs).1) :
    r.headers = c.headers ∧ r.url = c.endpoint ++ "/logs" ∧
      r.method = "POST" := by
  cases logs with
  | arr entries =>
    simp only [LogGatewayClient.batch, httpRequest, List.mem_singleton] at hr
    subst hr
    exact ⟨rfl, rfl, rfl⟩
  | null => cases hr
  | bool b => cases hr
  | num n => cases hr
  | str s => cases hr
  | obj o => cases hr

/-- A concrete instance, for witnesses. -/
def c0 : LogGatewayClient := mkClientD "http://x" "app-1"

/-- A gateway answering every request with
`200 {"success":true,"ingested":1}`, for witnesses. -/
def gw200 : Gateway := fun _ =>
  ⟨200, "\x7b\"success\":true,\"ingested\":1\x7d",
    some (Json.obj [("success", Json.bool true), ("ingested", Json.num 1)])⟩

/-- C1: for every level method and payload (with a truthy `msg`, so a send
happens), the transmitted body is the overlay of the caller's payload on
the generated defaults: its `level` field is the caller's when supplied and
otherwise the method's fixed wire level (`warning` sends `warn`, the others
their own name); its `timestamp` is the caller's when supplied and
otherwise the generated value; every other field is the caller's verbatim. -/
theorem c1_level_timestamp_overlay (m : LevelMethod) (c : LogGatewayClient)
    (now : String) (gw : Gateway) (payload : Obj)
    (hmsg : msgTruthy payload = true) :
    ∃ body : Obj,
      (m.run c now gw payload).1 =
        [⟨c.endpoint ++ "/logs", "POST", some (Json.obj body), c.headers⟩] ∧
      body.lookup "level" =
        (match payload.lookup "level" with
          | some v => some v
          | none => some (Json.str m.wireLevel)) ∧
      body.lookup "timestamp" =
        (match payload.lookup "timestamp" with
          | some v => some v
          | none => some (Json.str now)) ∧
      (∀ k, k ≠ "level" → k ≠ "timestamp" →
        body.lookup k = payload.lookup k) := by
  refine ⟨spreadMerge
    [("level", Json.str m.wireLevel), ("timestamp", Json.str now)] payload,
    ?_, ?_, ?_, ?_⟩
  · rw [levelMethod_run_eq_sendLog,
      sendLog_requests c now m.wireLevel gw payload hmsg]
  · cases h : payload.lookup "level" with
    | some v => rw [lookup_spreadMerge_of_some _ _ _ v h]
    | none => rw [lookup_spreadMerge_of_none _ _ _ h]; rfl
  · cases h : payload.lookup "timestamp" with
    | some v => rw [lookup_spreadMerge_of_some _ _ _ v h]
    | none => rw [lookup_spreadMerge_of_none _ _ _ h]; rfl
  · intro k h1 h2
    cases h : payload.lookup k with
    | some v => rw [lookup_spreadMerge_of_some _ _ _ v h]
    | none =>
      rw [lookup_spreadMerge_of_none _ _ _ h,
        defaults_lookup_other m.wireLevel now k h1 h2]

theorem c1_level_timestamp_overlay_witness :
    ∃ body : Obj,
      (LevelMethod.warning.run c0 "T0" gw200
        [("msg", Json.str "x"), ("timestamp", Json.str "T1")]).1 =
        [⟨c0.endpoint ++ "/logs", "POST", some (Json.obj body), c0.headers⟩] ∧
      body.lookup "level" = some (Json.str "warn") ∧
      body.lookup "timestamp" = some (Json.str "T1") ∧
      (∀ k, k ≠ "level" → k ≠ "timestamp" →
        body.lookup k =
          ([("msg", Json.str "x"), ("timestamp", Json.str "T1")] : Obj).lookup k) :=
  c1_level_timestamp_overlay LevelMethod.warning c0 "T0" gw200
    [("msg", Json.str "x"), ("timestamp", Json.str "T1")] rfl

/-- C2: invoking any of the four level methods with a payload whose merged
result lacks a non-empty `msg` (the field absent, or the empty string)
fails with the validation error — `Log payload must include "msg" field`,
the spec's `ValidationError` — and issues zero requests.  The generated
defaults never bind `msg`, so the merged `msg` is the caller's. -/
theorem c2_missing_msg_validation (m : LevelMethod) (c : LogGatewayClient)
    (now : String) (gw : Gateway) (payload : Obj)
    (hmsg : payload.lookup "msg" = none ∨
      payload.lookup "msg" = some (Json.str "")) :
    m.run c now gw payload = ([], Except.error msgFieldErrMsg) := by
  have hf : msgTruthy payload = false := by
    rcases hmsg with h | h <;> simp [msgTruthy, h, Json.truthy]
  rw [levelMethod_run_eq_sendLog]
  exact sendLog_validation c now m.wireLevel gw payload hf

theorem c2_missing_msg_validation_witness :
    LevelMethod.error.run c0 "T0" gw200 [("service", Json.str "svc")] =
      ([], Except.error msgFieldErrMsg) :=
  c2_missing_msg_validation LevelMethod.error c0 "T0" gw200
    [("service", Json.str "svc")] (Or.inl rfl)

/-- The characterization of substring containment at the character-list
level, giving decidability at concrete strings. -/
theorem strContains_data_iff (hay needle : String) :
    strContains hay needle ↔ needle.data <:+: hay.data := by
  constructor
  · rintro ⟨pre, post, h⟩
    refine ⟨pre.data, post.data, ?_⟩
    rw [h]
    simp [String.data_append]
  · rintro ⟨s, t, h⟩
    refine ⟨String.mk s, String.mk t, ?_⟩
    cases hay with
    | mk d =>
      cases needle with
      | mk nd => exact congrArg String.mk h.symm

/-- The wrapped non-2xx rejection message contains the decoded body's
string `error` field when the body is an object carrying one (trivially so
when it is empty, since the code then falls back to the generic message),
the generic `HTTP {status}` text for every other body whose `error` access
yields `undefined`, and the invalid-JSON message carrying the raw text for
a `null` body, whose `error` access throws into the enclosing `catch`. -/
theorem non2xxMessage_contains (body : Json) (raw : String) (status : Nat)
    (pre : String) :
    (match body with
      | Json.null =>
        strContains (pre ++ non2xxMessage body raw status)
          ("Invalid JSON response: " ++ raw)
      | Json.obj o =>
        (match o.lookup "error" with
          | some (Json.str s) =>
            strContains (pre ++ non2xxMessage body raw status) s
          | none => strContains (pre ++ non2xxMessage body raw status)
              ("HTTP " ++ toString status)
          | some _ => True)
      | _ => strContains (pre ++ non2xxMessage body raw status)
          ("HTTP " ++ toString status)) := by
  cases body with
  | null => exact strContains_of_append pre _
  | obj o =>
    dsimp only
    cases hf : o.lookup "error" with
    | none =>
      simp only [non2xxMessage, jsErrorAccess, hf, httpErrorMessage]
      exact strContains_of_append pre _
    | some v =>
      cases v with
      | str s =>
        simp only [non2xxMessage, jsErrorAccess, hf, httpErrorMessage]
        by_cases hs : s = ""
        · subst hs
          simp only [Json.truthy, bne_self_eq_false, Bool.false_eq_true,
            if_false]
          exact strContains_empty _
        · have ht : (Json.str s).truthy = true := by
            simp [Json.truthy, hs]
          simp only [ht, if_true]
          exact strContains_of_append pre s
      | null => trivial
      | bool b => trivial
      | num n => trivial
      | arr a => trivial
      | obj o2 => trivial
  | bool b => exact strContains_of_append pre _
  | num n => exact strContains_of_append pre _
  | str s => exact strContains_of_append pre _
  | arr a => exact strContains_of_append pre _

/-- C3 counterexample: `null` is a valid-JSON body (raw text `null`) with
no `error` field, yet at status 500 the rejection message does not contain
the generic `HTTP 500` the claim promises: evaluating `parsed.error` on
`null` throws a TypeError inside the `try` block (client.ts line 92), so
the enclosing `catch` rejects with the invalid-JSON message carrying the
raw text instead. -/
theorem c3_null_body_counterexample :
    (LevelMethod.info.run c0 "T0" (fun _ => ⟨500, "null", some Json.null⟩)
        [("msg", Json.str "x")]).2 =
      Except.error "Failed to send log: Invalid JSON response: null" ∧
    ¬ strContains "Failed to send log: Invalid JSON response: null"
      "HTTP 500" := by
  refine ⟨rfl, ?_⟩
  rw [strContains_data_iff]
  decide

/-- C3 amended: for every send method (the four level methods and
`batch`), when the gateway answers with a status outside [200,300) and a
valid-JSON body, the call rejects with a message that contains the body's
string `error` field when the body is an object carrying one, and
otherwise the generic `HTTP {status}` text — except for the JSON body
`null`, where the `parsed.error` access throws a TypeError inside the
handler's `try` block and the call instead rejects with the invalid-JSON
message carrying the raw response text; in particular `500` with body
carrying `error` = `db down` rejects with a message containing `db down`. -/
theorem c3_non2xx_error_propagation :
    (∀ (m : LevelMethod) (c : LogGatewayClient) (now : String) (payload : Obj)
        (status : Nat) (raw : String) (body : Json),
        msgTruthy payload = true →
        ¬(200 ≤ status ∧ status < 300) →
        ∃ emsg,
          (m.run c now (fun _ => ⟨status, raw, some body⟩) payload).2 =
            Except.error emsg ∧
          (match body with
            | Json.null => strContains emsg ("Invalid JSON response: " ++ raw)
            | Json.obj o =>
              (match o.lookup "error" with
                | some (Json.str s) => strContains emsg s
                | none => strContains emsg ("HTTP " ++ toString status)
                | some _ => True)
            | _ => strContains emsg ("HTTP " ++ toString status))) ∧
    (∀ (c : LogGatewayClient) (nowSeq : Nat → String) (entries : List Json)
        (status : Nat) (raw : String) (body : Json),
        ¬(200 ≤ status ∧ status < 300) →
        ∃ emsg,
          (c.batch nowSeq (fun _ => ⟨status, raw, some body⟩)
              (Json.arr entries)).2 = Except.error emsg ∧
          (match body with
            | Json.null => strContains emsg ("Invalid JSON response: " ++ raw)
            | Json.obj o =>
              (match o.lookup "error" with
                | some (Json.str s) => strContains emsg s
                | none => strContains emsg ("HTTP " ++ toString status)
                | some _ => True)
            | _ => strContains emsg ("HTTP " ++ toString status))) := by
  constructor
  · intro m c now payload status raw body hmsg hstat
    refine ⟨"Failed to send log: " ++ non2xxMessage body raw status, ?_,
      non2xxMessage_contains body raw status "Failed to send log: "⟩
    rw [levelMethod_run_eq_sendLog,
      sendLog_requests c now m.wireLevel (fun _ => ⟨status, raw, some body⟩)
        payload hmsg]
    show wrapFailure "Failed to send log: "
      (handleResponse ⟨status, raw, some body⟩) = _
    simp only [handleResponse]
    rw [if_neg hstat]
    rfl
  · intro c nowSeq entries status raw body hstat
    refine ⟨"Failed to send batch logs: " ++ non2xxMessage body raw status, ?_,
      non2xxMessage_contains body raw status "Failed to send batch logs: "⟩
    show wrapFailure "Failed to send batch logs: "
      (handleResponse ⟨status, raw, some body⟩) = _
    simp only [handleResponse]
    rw [if_neg hstat]
    rfl

theorem c3_non2xx_error_propagation_witness :
    (¬(200 ≤ 500 ∧ 500 < 300)) ∧
    (∃ emsg,
      (LevelMethod.info.run c0 "T0"
        (fun _ => ⟨500, "\x7b\"error\":\"db down\"\x7d",
          some (Json.obj [("error", Json.str "db down")])⟩)
        [("msg", Json.str "x")]).2 = Except.error emsg ∧
      strContains emsg "db down") ∧
    (∃ emsg,
      (c0.batch (fun _ => "T0")
        (fun _ => ⟨500, "\x7b\"error\":\"db down\"\x7d",
          some (Json.obj [("error", Json.str "db down")])⟩)
        (Json.arr [Json.obj [("level", Json.str "info"), ("msg", Json.str "a")]])).2 =
        Except.error emsg ∧
      strContains emsg "db down") :=
  ⟨by decide,
    c3_non2xx_error_propagation.1 LevelMethod.info c0 "T0"
      [("msg", Json.str "x")] 500 "\x7b\"error\":\"db down\"\x7d"
      (Json.obj [("error", Json.str "db down")]) rfl (by decide),
    c3_non2xx_error_propagation.2 c0 (fun _ => "T0")
      [Json.obj [("level", Json.str "info"), ("msg", Json.str "a")]] 500
      "\x7b\"error\":\"db down\"\x7d"
      (Json.obj [("error", Json.str "db down")]) (by decide)⟩

/-- C4: for every send method and every status — 2xx included — a response
whose body text is not valid JSON makes the call reject with a message
carrying the raw response text. -/
theorem c4_invalid_json_rejection :
    (∀ (m : LevelMethod) (c : LogGatewayClient) (now : String) (payload : Obj)
        (status : Nat) (raw : String),
        msgTruthy payload = true →
        ∃ emsg,
          (m.run c now (fun _ => ⟨status, raw, none⟩) payload).2 =
            Except.error emsg ∧ strContains emsg raw) ∧
    (∀ (c : LogGatewayClient) (nowSeq : Nat → String) (entries : List Json)
        (status : Nat) (raw : String),
        ∃ emsg,
          (c.batch nowSeq (fun _ => ⟨status, raw, none⟩)
              (Json.arr entries)).2 = Except.error emsg ∧
          strContains emsg raw) := by
  constructor
  · intro m c now payload status raw hmsg
    refine ⟨"Failed to send log: " ++ ("Invalid JSON response: " ++ raw), ?_,
      ⟨"Failed to send log: " ++ "Invalid JSON response: ", "",
        by rw [string_append_empty, string_append_assoc]⟩⟩
    rw [levelMethod_run_eq_sendLog,
      sendLog_requests c now m.wireLevel (fun _ => ⟨status, raw, none⟩)
        payload hmsg]
    rfl
  · intro c nowSeq entries status raw
    exact ⟨"Failed to send batch logs: " ++ ("Invalid JSON response: " ++ raw),
      rfl,
      ⟨"Failed to send batch logs: " ++ "Invalid JSON response: ", "",
        by rw [string_append_empty, string_append_assoc]⟩⟩

theorem c4_invalid_json_rejection_witness :
    (∃ emsg,
      (LevelMethod.debug.run c0 "T0" (fun _ => ⟨200, "not-json", none⟩)
        [("msg", Json.str "x")]).2 = Except.error emsg ∧
      strContains emsg "not-json") ∧
    (∃ emsg,
      (c0.batch (fun _ => "T0") (fun _ => ⟨200, "not-json", none⟩)
        (Json.arr [])).2 = Except.error emsg ∧
      strContains emsg "not-json") :=
  ⟨c4_invalid_json_rejection.1 LevelMethod.debug c0 "T0"
      [("msg", Json.str "x")] 200 "not-json" rfl,
    c4_invalid_json_rejection.2 c0 (fun _ => "T0") [] 200 "not-json"⟩

/-- Spreading each entry of a mapped-to-`Json.obj` list commutes with the
object-level merge, entrywise and index-aware. -/
theorem batchProcessed_eq (nowSeq : Nat → String) (n : Nat)
    (entries : List Obj) :
    ((entries.map Json.obj).enumFrom n).map
        (fun p => Json.obj (jsSpread [("timestamp", Json.str (nowSeq p.1))] p.2)) =
      ((entries.enumFrom n).map
        (fun p => spreadMerge [("timestamp", Json.str (nowSeq p.1))] p.2)).map
        Json.obj := by
  induction entries generalizing n with
  | nil => rfl
  | cons e t ih =>
    simp only [List.map_cons, List.enumFrom, jsSpread, jsSpreadFields]
    have ih2 := ih (n + 1)
    simp only [jsSpread, jsSpreadFields] at ih2
    rw [ih2]

theorem ts_default_lookup_other (tsv : Json) (k : String)
    (hk : k ≠ "timestamp") :
    (([("timestamp", tsv)] : Obj).lookup k) = none := by
  simp [List.lookup, beq_eq_false_iff_ne.mpr hk]

/-- C6: `batch` rejects a non-array input with the validation error —
`Batch logs must be an array`, the spec's `ValidationError` — and zero
requests; for every array of entry objects it issues exactly one POST to
`{endpoint}/logs` whose body is the whole input as one JSON array, each
element keeping its own `timestamp` when it carries one and otherwise
being stamped with the generated one, all other fields verbatim. -/
theorem c6_batch_single_post :
    (∀ (c : LogGatewayClient) (nowSeq : Nat → String) (gw : Gateway)
        (j : Json),
        (∀ xs, j ≠ Json.arr xs) →
        c.batch nowSeq gw j = ([], Except.error batchArrayErrMsg)) ∧
    (∀ (c : LogGatewayClient) (nowSeq : Nat → String) (gw : Gateway)
        (entries : List Obj),
        ∃ processed : List Obj,
          (c.batch nowSeq gw (Json.arr (entries.map Json.obj))).1 =
            [⟨c.endpoint ++ "/logs", "POST",
              some (Json.arr (processed.map Json.obj)), c.headers⟩] ∧
          processed.length = entries.length ∧
          (∀ i (hi : i < entries.length) (hp : i < processed.length),
            ((processed.get ⟨i, hp⟩).lookup "timestamp" =
              match (entries.get ⟨i, hi⟩).lookup "timestamp" with
              | some v => some v
              | none => some (Json.str (nowSeq i))) ∧
            (∀ k, k ≠ "timestamp" →
              (processed.get ⟨i, hp⟩).lookup k =
                (entries.get ⟨i, hi⟩).lookup k))) := by
  constructor
  · intro c nowSeq gw j h
    cases j with
    | arr xs => exact absurd rfl (h xs)
    | null => rfl
    | bool b => rfl
    | num n => rfl
    | str s => rfl
    | obj o => rfl
  · intro c nowSeq gw entries
    refine ⟨(entries.enumFrom 0).map
      (fun p => spreadMerge [("timestamp", Json.str (nowSeq p.1))] p.2),
      ?_, ?_, ?_⟩
    · simp only [LogGatewayClient.batch, httpRequest, List.enum_eq_enumFrom,
        Json.truthy, if_true]
      rw [batchProcessed_eq nowSeq 0 entries]
    · simp [List.enumFrom_length]
    · intro i hi hp
      have hpe : ((entries.enumFrom 0).map
          (fun p => spreadMerge [("timestamp", Json.str (nowSeq p.1))] p.2)).get
            ⟨i, hp⟩ =
          spreadMerge [("timestamp", Json.str (nowSeq i))]
            (entries.get ⟨i, hi⟩) := by
        simp [List.get_eq_getElem, List.getElem_map, List.getElem_enumFrom]
      rw [hpe]
      constructor
      · cases h : (entries.get ⟨i, hi⟩).lookup "timestamp" with
        | some v => rw [lookup_spreadMerge_of_some _ _ _ v h]
        | none => rw [lookup_spreadMerge_of_none _ _ _ h]; rfl
      · intro k hk
        cases h : (entries.get ⟨i, hi⟩).lookup k with
        | some v => rw [lookup_spreadMerge_of_some _ _ _ v h]
        | none =>
          rw [lookup_spreadMerge_of_none _ _ _ h,
            ts_default_lookup_other _ k hk]

theorem c6_batch_single_post_witness :
    (c0.batch (fun _ => "T0") gw200 (Json.str "not-an-array") =
      ([], Except.error batchArrayErrMsg)) ∧
    (∃ processed : List Obj,
      (c0.batch (fun _ => "T0") gw200
        (Json.arr ([[("level", Json.str "info"), ("msg", Json.str "a")],
          [("level", Json.str "error"), ("msg", Json.str "b")]].map Json.obj))).1 =
        [⟨c0.endpoint ++ "/logs", "POST",
          some (Json.arr (processed.map Json.obj)), c0.headers⟩] ∧
      processed.length = 2 ∧
      (∀ i (hi : i < 2) (hp : i < processed.length),
        ((processed.get ⟨i, hp⟩).lookup "timestamp" =
          match (([[("level", Json.str "info"), ("msg", Json.str "a")],
            [("level", Json.str "error"), ("msg", Json.str "b")]] : List Obj).get
              ⟨i, hi⟩).lookup "timestamp" with
          | some v => some v
          | none => some (Json.str "T0")) ∧
        (∀ k, k ≠ "timestamp" →
          (processed.get ⟨i, hp⟩).lookup k =
            (([[("level", Json.str "info"), ("msg", Json.str "a")],
              [("level", Json.str "error"), ("msg", Json.str "b")]] : List Obj).get
                ⟨i, hi⟩).lookup k))) :=
  ⟨c6_batch_single_post.1 c0 (fun _ => "T0") gw200 (Json.str "not-an-array")
      (fun _ h => Json.noConfusion h),
    c6_batch_single_post.2 c0 (fun _ => "T0") gw200
      [[("level", Json.str "info"), ("msg", Json.str "a")],
        [("level", Json.str "error"), ("msg", Json.str "b")]]⟩

/-- C7: each `log.*` free function fails with the not-configured error —
`Logger not configured. Call configure(endpoint, appId) first.`, the
spec's `NotConfiguredError` — and zero requests when no global instance is
registered, and otherwise forwards its arguments unchanged to the
registered instance's matching method, returning its outcome. -/
theorem c7_global_forwarding :
    (∀ (now : String) (gw : Gateway) (payload : Obj),
      log.info none now gw payload = ([], Except.error notConfiguredErrMsg)) ∧
    (∀ (now : String) (gw : Gateway) (payload : Obj),
      log.warning none now gw payload = ([], Except.error notConfiguredErrMsg)) ∧
    (∀ (now : String) (gw : Gateway) (payload : Obj),
      log.error none now gw payload = ([], Except.error notConfiguredErrMsg)) ∧
    (∀ (now : String) (gw : Gateway) (payload : Obj),
      log.debug none now gw payload = ([], Except.error notConfiguredErrMsg)) ∧
    (∀ (nowSeq : Nat → String) (gw : Gateway) (logs : Json),
      log.batch none nowSeq gw logs = ([], Except.error notConfiguredErrMsg)) ∧
    (∀ (c : LogGatewayClient) (now : String) (gw : Gateway) (payload : Obj),
      log.info (some c) now gw payload = c.info now gw payload) ∧
    (∀ (c : LogGatewayClient) (now : String) (gw : Gateway) (payload : Obj),
      log.warning (some c) now gw payload = c.warning now gw payload) ∧
    (∀ (c : LogGatewayClient) (now : String) (gw : Gateway) (payload : Obj),
      log.error (some c) now gw payload = c.error now gw payload) ∧
    (∀ (c : LogGatewayClient) (now : String) (gw : Gateway) (payload : Obj),
      log.debug (some c) now gw payload = c.debug now gw payload) ∧
    (∀ (c : LogGatewayClient) (nowSeq : Nat → String) (gw : Gateway)
        (logs : Json),
      log.batch (some c) nowSeq gw logs = c.batch nowSeq gw logs) :=
  ⟨fun _ _ _ => rfl, fun _ _ _ => rfl, fun _ _ _ => rfl, fun _ _ _ => rfl,
    fun _ _ _ => rfl, fun _ _ _ _ => rfl, fun _ _ _ _ => rfl,
    fun _ _ _ _ => rfl, fun _ _ _ _ => rfl, fun _ _ _ _ => rfl⟩

/-- C8 counterexample: `testConnection` issues a request through the
instance whose header set is only the content type — not the instance's
stored `X-App-Id`/`Content-Type` pair — refuting `every request issued
through the instance carries the identical headers`. -/
theorem c8_health_headers_counterexample :
    (c0.testConnection gw200).1.map HttpRequest.headers =
      [[("Content-Type", "application/json")]] ∧
    c0.headers = [("X-App-Id", "app-1"), ("Content-Type", "application/json")] ∧
    ¬([[("Content-Type", "application/json")]] = [c0.headers]) :=
  ⟨rfl, rfl, by decide⟩

/-- C8 amended: an instance's endpoint and headers never change after
construction (no operation of the embedding even returns a modified
instance), and every request issued by the five log-sending operations
(`info`, `warning`, `error`, `debug`, `batch`) carries exactly the
instance's stored headers, as a POST to `{endpoint}/logs`; `testConnection`
alone sends a GET to `{endpoint}/health` with only a content-type header. -/
theorem c8_fixed_headers_on_sends :
    (∀ (m : LevelMethod) (c : LogGatewayClient) (now : String) (gw : Gateway)
        (payload : Obj) (r : HttpRequest),
        r ∈ (m.run c now gw payload).1 →
        r.headers = c.headers ∧ r.url = c.endpoint ++ "/logs" ∧
          r.method = "POST") ∧
    (∀ (c : LogGatewayClient) (nowSeq : Nat → String) (gw : Gateway)
        (logs : Json) (r : HttpRequest),
        r ∈ (c.batch nowSeq gw logs).1 →
        r.headers = c.headers ∧ r.url = c.endpoint ++ "/logs" ∧
          r.method = "POST") ∧
    (∀ (c : LogGatewayClient) (gw : Gateway) (r : HttpRequest),
        r ∈ (c.testConnection gw).1 →
        r.headers = [("Content-Type", "application/json")] ∧
          r.url = c.endpoint ++ "/health" ∧ r.method = "GET") := by
  refine ⟨?_, ?_, ?_⟩
  · intro m c now gw payload r hr
    rw [levelMethod_run_eq_sendLog] at hr
    exact sendLog_mem_requests c now m.wireLevel gw payload r hr
  · intro c nowSeq gw logs r hr
    exact batch_mem_requests c nowSeq gw logs r hr
  · intro c gw r hr
    simp only [LogGatewayClient.testConnection, httpRequest,
      List.mem_singleton] at hr
    subst hr
    exact ⟨rfl, rfl, rfl⟩

theorem c8_fixed_headers_on_sends_witness :
    (([("X-App-Id", "app-1"), ("Content-Type", "application/json")] :
        List (String × String)) = c0.headers ∧
      "http://x/logs" = c0.endpoint ++ "/logs" ∧ "POST" = "POST") ∧
    (([("Content-Type", "application/json")] : List (String × String)) =
        [("Content-Type", "application/json")] ∧
      "http://x/health" = c0.endpoint ++ "/health" ∧ "GET" = "GET") :=
  ⟨c8_fixed_headers_on_sends.1 LevelMethod.info c0 "T0" gw200
      [("msg", Json.str "x")]
      ⟨"http://x/logs", "POST",
        some (Json.obj [("level", Json.str "info"), ("timestamp", Json.str "T0"),
          ("msg", Json.str "x")]),
        [("X-App-Id", "app-1"), ("Content-Type", "application/json")]⟩
      (List.mem_singleton.mpr rfl),
    c8_fixed_headers_on_sends.2.2 c0 gw200
      ⟨"http://x/health", "GET", none,
        [("Content-Type", "application/json")]⟩
      (List.mem_singleton.mpr rfl)⟩

/-- C9: `createClient` leaves the global registry slot untouched and just
returns a fresh instance; `configure` constructs, stores the instance as
the sole registered one (replacing any previous), and returns it; two
instances created with different app ids each carry — and send — their own
`X-App-Id` header, with no effect on each other or on the slot. -/
theorem c9_createClient_configure :
    (∀ (g : Option LogGatewayClient) (e a : String),
      (createClientS g e a).2 = g) ∧
    (∀ (g : Option LogGatewayClient) (e a : String) (c : LogGatewayClient),
      createClient e a = Except.ok c →
      configure g e a = (Except.ok c, some c)) ∧
    (∀ (e a1 a2 : String) (c1 c2 : LogGatewayClient),
      createClient e a1 = Except.ok c1 →
      createClient e a2 = Except.ok c2 →
      c1.headers.lookup "X-App-Id" = some a1 ∧
      c2.headers.lookup "X-App-Id" = some a2 ∧
      (∀ (now : String) (gw : Gateway) (p : Obj) (r : HttpRequest),
        r ∈ (c1.info now gw p).1 → r.headers.lookup "X-App-Id" = some a1) ∧
      (∀ (now : String) (gw : Gateway) (p : Obj) (r : HttpRequest),
        r ∈ (c2.info now gw p).1 → r.headers.lookup "X-App-Id" = some a2)) := by
  refine ⟨fun g e a => rfl, ?_, ?_⟩
  · intro g e a c h
    unfold configure
    rw [h]
  · intro e a1 a2 c1 c2 h1 h2
    have hc1 : c1 = mkClientD e a1 := by
      unfold createClient mkClient at h1
      by_cases hcond : e = "" ∨ a1 = ""
      · rw [if_pos hcond] at h1; cases h1
      · rw [if_neg hcond] at h1
        injection h1 with hh
        exact hh.symm
    have hc2 : c2 = mkClientD e a2 := by
      unfold createClient mkClient at h2
      by_cases hcond : e = "" ∨ a2 = ""
      · rw [if_pos hcond] at h2; cases h2
      · rw [if_neg hcond] at h2
        injection h2 with hh
        exact hh.symm
    subst hc1
    subst hc2
    refine ⟨rfl, rfl, ?_, ?_⟩
    · intro now gw p r hr
      rw [(sendLog_mem_requests (mkClientD e a1) now "info" gw p r hr).1]
      rfl
    · intro now gw p r hr
      rw [(sendLog_mem_requests (mkClientD e a2) now "info" gw p r hr).1]
      rfl

theorem c9_createClient_configure_witness :
    ((createClientS (some c0) "http://y" "app-9").2 = some c0) ∧
    (configure none "http://x" "app-1" =
      (Except.ok (mkClientD "http://x" "app-1"),
        some (mkClientD "http://x" "app-1"))) ∧
    ((mkClientD "http://x" "app-1").headers.lookup "X-App-Id" = some "app-1" ∧
      (mkClientD "http://x" "app-2").headers.lookup "X-App-Id" = some "app-2" ∧
      (∀ (now : String) (gw : Gateway) (p : Obj) (r : HttpRequest),
        r ∈ ((mkClientD "http://x" "app-1").info now gw p).1 →
          r.headers.lookup "X-App-Id" = some "app-1") ∧
      (∀ (now : String) (gw : Gateway) (p : Obj) (r : HttpRequest),
        r ∈ ((mkClientD "http://x" "app-2").info now gw p).1 →
          r.headers.lookup "X-App-Id" = some "app-2")) :=
  ⟨c9_createClient_configure.1 (some c0) "http://y" "app-9",
    c9_createClient_configure.2.1 none "http://x" "app-1"
      (mkClientD "http://x" "app-1") rfl,
    c9_createClient_configure.2.2 "http://x" "app-1" "app-2"
      (mkClientD "http://x" "app-1") (mkClientD "http://x" "app-2") rfl rfl⟩

/-- C10: `batch` validates only that the input is an array — entries are
never validated: an entry lacking `msg` and `level` is transmitted
verbatim (no level default is injected, only the timestamp stamp), and the
empty array passes validation and is sent as one POST whose body is the
empty JSON array. -/
theorem c10_batch_no_entry_validation :
    (∀ (c : LogGatewayClient) (nowSeq : Nat → String) (gw : Gateway),
      (c.batch nowSeq gw (Json.arr [])).1 =
        [⟨c.endpoint ++ "/logs", "POST", some (Json.arr []), c.headers⟩]) ∧
    (∀ (c : LogGatewayClient) (nowSeq : Nat → String) (gw : Gateway)
        (entry : Obj),
        entry.lookup "msg" = none → entry.lookup "level" = none →
        ∃ procEntry : Obj,
          (c.batch nowSeq gw (Json.arr [Json.obj entry])).1 =
            [⟨c.endpoint ++ "/logs", "POST",
              some (Json.arr [Json.obj procEntry]), c.headers⟩] ∧
          procEntry.lookup "level" = none ∧
          procEntry.lookup "msg" = none ∧
          (entry.lookup "timestamp" = none →
            procEntry.lookup "timestamp" = some (Json.str (nowSeq 0))) ∧
          (∀ k, k ≠ "timestamp" →
            procEntry.lookup k = entry.lookup k)) := by
  constructor
  · intro c nowSeq gw
    rfl
  · intro c nowSeq gw entry hmsg hlevel
    refine ⟨spreadMerge [("timestamp", Json.str (nowSeq 0))] entry,
      rfl, ?_, ?_, ?_, ?_⟩
    · rw [lookup_spreadMerge_of_none _ _ _ hlevel]
      exact ts_default_lookup_other _ _ (by decide)
    · rw [lookup_spreadMerge_of_none _ _ _ hmsg]
      exact ts_default_lookup_other _ _ (by decide)
    · intro hts
      rw [lookup_spreadMerge_of_none _ _ _ hts]
      rfl
    · intro k hk
      cases h : entry.lookup k with
      | some v => rw [lookup_spreadMerge_of_some _ _ _ v h]
      | none =>
        rw [lookup_spreadMerge_of_none _ _ _ h,
          ts_default_lookup_other _ k hk]

theorem c10_batch_no_entry_validation_witness :
    ((c0.batch (fun _ => "T0") gw200 (Json.arr [])).1 =
      [⟨c0.endpoint ++ "/logs", "POST", some (Json.arr []), c0.headers⟩]) ∧
    (∃ procEntry : Obj,
      (c0.batch (fun _ => "T0") gw200
          (Json.arr [Json.obj [("foo", Json.str "bar")]])).1 =
        [⟨c0.endpoint ++ "/logs", "POST",
          some (Json.arr [Json.obj procEntry]), c0.headers⟩] ∧
      procEntry.lookup "level" = none ∧
      procEntry.lookup "msg" = none ∧
      (([("foo", Json.str "bar")] : Obj).lookup "timestamp" = none →
        procEntry.lookup "timestamp" = some (Json.str "T0")) ∧
      (∀ k, k ≠ "timestamp" →
        procEntry.lookup k = ([("foo", Json.str "bar")] : Obj).lookup k)) :=
  ⟨c10_batch_no_entry_validation.1 c0 (fun _ => "T0") gw200,
    c10_batch_no_entry_validation.2 c0 (fun _ => "T0") gw200
      [("foo", Json.str "bar")] rfl rfl⟩

/-- C5 counterexample: the constructor accepts `http://x//` (both
arguments non-empty) and strips exactly one slash, so the stored base
`http://x/` still ends with a slash and the URL built for sends,
`http://x//logs`, has a double slash at the join — refuting the claim's
`no double slash` clause over all valid constructor inputs. -/
theorem c5_double_slash_counterexample :
    mkClient "http://x//" "app-1" =
      Except.ok (mkClientD "http://x//" "app-1") ∧
    (mkClientD "http://x//" "app-1").endpoint = "http://x/" ∧
    (mkClientD "http://x//" "app-1").endpoint ++ "/logs" = "http://x//logs" ∧
    endsWithSlash (mkClientD "http://x//" "app-1").endpoint :=
  ⟨rfl, by decide, by decide, by decide⟩

/-- C5 amended: for every valid constructor input the stored endpoint is
the input with exactly one trailing slash stripped when one is present
(inputs `http://x/` and `http://x` both yield `http://x`), and the URL
built for sends — `{endpoint}/logs` — has no double slash at the join
provided the input did not end in two consecutive slashes. -/
theorem c5_endpoint_normalization (e a : String) (he : e ≠ "") (ha : a ≠ "") :
    mkClient e a = Except.ok (mkClientD e a) ∧
    (mkClientD e a).endpoint = stripTrailingSlash e ∧
    stripTrailingSlash "http://x/" = "http://x" ∧
    stripTrailingSlash "http://x" = "http://x" ∧
    (¬(endsWithSlash e ∧ endsWithSlash (String.mk e.data.dropLast)) →
      ¬ endsWithSlash (mkClientD e a).endpoint) := by
  refine ⟨?_, rfl, by decide, by decide, ?_⟩
  · have hcond : ¬(e = "" ∨ a = "") := by
      intro hor
      rcases hor with h1 | h1
      · exact he h1
      · exact ha h1
    unfold mkClient
    rw [if_neg hcond]
  · intro h
    show ¬((String.mk (stripTrailingSlashChars e.data)).data.getLast? = some '/')
    unfold stripTrailingSlashChars
    by_cases hl : e.data.getLast? = some '/'
    · rw [if_pos hl]
      intro hc
      exact h ⟨hl, hc⟩
    · rw [if_neg hl]
      exact hl

theorem c5_endpoint_normalization_witness :
    mkClient "http://x/" "app-1" =
      Except.ok (mkClientD "http://x/" "app-1") ∧
    (mkClientD "http://x/" "app-1").endpoint = stripTrailingSlash "http://x/" ∧
    stripTrailingSlash "http://x/" = "http://x" ∧
    stripTrailingSlash "http://x" = "http://x" ∧
    (¬(endsWithSlash "http://x/" ∧
        endsWithSlash (String.mk ("http://x/".data.dropLast))) →
      ¬ endsWithSlash (mkClientD "http://x/" "app-1").endpoint) :=
  c5_endpoint_normalization "http://x/" "app-1" (by decide) (by decide)
